import Mathlib

/-!
Verification of the in-memory event/stats/health simulation service of the
SecureGuard repository.

The embedding follows the TypeScript source:
  - `server/routes/security-events.ts` : event store, periodic producer,
    pagination (`getSecurityEvents`), submission (`addSecurityEvent`);
  - `server/routes/security-stats.ts` : stats singleton (`updateSecurityStats`,
    `getSecurityStats`), health singleton (`getSystemHealth`) and the periodic
    drift interval.

Vocabulary note: the design document speaks of `kind`/`outcome`/`occurredAt`,
which in the source are the fields `type`/`status`/`timestamp`, with
`kind = badge-access` being `type = "rfid"` and `kind = denial-of-service`
being `type = "dos"`.

Randomness (`Math.random()` draws, `Date.now`) is modelled by passing each
draw in explicitly, so every operation is a pure function of the store, the
input and the drawn values.
-/

namespace SecureGuard

/-- `SecurityEvent.type` union `"rfid" | "dos"` from `shared/api.ts`. -/
inductive EventType
  | rfid
  | dos
deriving DecidableEq, Repr

/-- `SecurityEvent.status` union from `shared/api.ts`. -/
inductive EventStatus
  | authorized
  | unauthorized
  | blocked
  | detected
deriving DecidableEq, Repr

/-- `SecurityEvent.severity` union from `shared/api.ts`. -/
inductive Severity
  | low
  | medium
  | high
  | critical
deriving DecidableEq, Repr

/-- The `SecurityEvent` interface of `shared/api.ts`; `location`, `cardId`,
`ipAddress` and `description` are optional there. -/
structure SecurityEvent where
  id : String
  type : EventType
  status : EventStatus
  timestamp : String
  location : Option String := none
  cardId : Option String := none
  ipAddress : Option String := none
  severity : Severity
  description : Option String := none
deriving DecidableEq, Repr

/-- One tick's worth of random draws consumed by `generateMockEvent`
(`security-events.ts` lines 8–40), plus the clock reading. `pickDos` is
`Math.random() > 0.7`, `outcomeFlag` is the `isAuthorized` / `isBlocked`
draw of whichever branch runs, `sevFlag` is the `Math.random() > 0.5`
severity draw of the unauthorized branch. -/
structure MockRand where
  pickDos : Bool
  outcomeFlag : Bool
  sevFlag : Bool
  idStr : String
  now : String
  locFloor : Nat
  locRoom : Nat
  cardStr : String
  ip1 : Nat
  ip2 : Nat
  ip3 : Nat
  ip4 : Nat
deriving DecidableEq, Repr

/-- `generateMockEvent` of `security-events.ts`: an rfid event is
authorized/unauthorized, a dos event is blocked/detected, with severity and
description chosen as in the source. -/
def generateMockEvent (r : MockRand) : SecurityEvent :=
  if r.pickDos then
    { id := r.idStr
      type := .dos
      status := if r.outcomeFlag then .blocked else .detected
      timestamp := r.now
      ipAddress := some (toString r.ip1 ++ "." ++ toString r.ip2 ++ "." ++
        toString r.ip3 ++ "." ++ toString r.ip4)
      severity := if r.outcomeFlag then .high else .critical
      description := some (if r.outcomeFlag then "DoS attack blocked by firewall"
        else "DoS attack detected - monitoring") }
  else
    { id := r.idStr
      type := .rfid
      status := if r.outcomeFlag then .authorized else .unauthorized
      timestamp := r.now
      location := some ("Floor " ++ toString r.locFloor ++ " - Room " ++ toString r.locRoom)
      cardId := some ("CARD-" ++ r.cardStr)
      severity := if r.outcomeFlag then .low else if r.sevFlag then .high else .medium
      description := some (if r.outcomeFlag then "Valid access card detected"
        else "Unauthorized access attempt") }

/-- Body of the `setInterval` producer in `security-events.ts` lines 48–56:
unshift one mock event, then `slice(0, 100)` when the length exceeds 100. -/
def producerTick (r : MockRand) (store : List SecurityEvent) : List SecurityEvent :=
  let newStore := generateMockEvent r :: store
  if newStore.length > 100 then newStore.take 100 else newStore

/-- The `SecurityEventsResponse` interface of `shared/api.ts`. -/
structure SecurityEventsResponse where
  events : List SecurityEvent
  total : Nat
  page : Nat
  limit : Nat
deriving DecidableEq, Repr

/-- `getSecurityEvents` of `security-events.ts` lines 58–74, after the
query-string parsing: `startIndex = (page-1)*limit`, the slice
`events[startIndex : startIndex+limit]`, and `total` the full store length.
JavaScript `slice(a, b)` on a list is `(drop a).take (b - a)`, here
`take limit` of `drop startIndex`. -/
def getSecurityEvents (store : List SecurityEvent) (page limit : Nat) :
    SecurityEventsResponse :=
  let startIndex := (page - 1) * limit
  { events := (store.drop startIndex).take limit
    total := store.length
    page := page
    limit := limit }

/-- The request body of the submit route: `Partial<SecurityEvent>`. -/
structure PartialEvent where
  id : Option String := none
  type : Option EventType := none
  status : Option EventStatus := none
  timestamp : Option String := none
  location : Option String := none
  cardId : Option String := none
  ipAddress : Option String := none
  severity : Option Severity := none
  description : Option String := none
deriving DecidableEq, Repr

/-- The object literal `{ id: gen, timestamp: now, severity: "medium",
...event }` built by `addSecurityEvent`: a field provided in the body
overrides the generated default (the spread comes last). -/
def mergeEvent (newId now : String) (e : PartialEvent)
    (t : EventType) (st : EventStatus) : SecurityEvent :=
  { id := e.id.getD newId
    type := t
    status := st
    timestamp := e.timestamp.getD now
    location := e.location
    cardId := e.cardId
    ipAddress := e.ipAddress
    severity := e.severity.getD .medium
    description := e.description }

/-- `addSecurityEvent` of `security-events.ts` lines 76–95: reject with a 400
error when `type` or `status` is missing, otherwise build the event and
unshift it (no trim here). Returns the response together with the new store. -/
def addSecurityEvent (newId now : String) (e : PartialEvent)
    (store : List SecurityEvent) :
    Except String SecurityEvent × List SecurityEvent :=
  match e.type, e.status with
  | some t, some st =>
      let newEvent := mergeEvent newId now e t st
      (.ok newEvent, newEvent :: store)
  | _, _ => (.error "Missing required fields: type, status", store)

/-- States of the event store reachable in the process: the 20-event seed
batch (`Array.from({length: 20}, generateMockEvent)`), periodic producer
ticks, and submissions through the route (a rejected submission leaves the
store as it was, which `(addSecurityEvent ...).2` already expresses). -/
inductive Reachable : List SecurityEvent → Prop
  | seed (rs : List MockRand) (h : rs.length = 20) :
      Reachable (rs.map generateMockEvent)
  | tick (r : MockRand) {s : List SecurityEvent} :
      Reachable s → Reachable (producerTick r s)
  | submit (newId now : String) (e : PartialEvent) {s : List SecurityEvent} :
      Reachable s → Reachable (addSecurityEvent newId now e s).2

/-- The valid outcome set of each kind, from the design's data model: a
badge-access (rfid) event is authorized or unauthorized, a denial-of-service
(dos) event is blocked or detected. -/
def validOutcome : EventType → EventStatus → Bool
  | .rfid, .authorized => true
  | .rfid, .unauthorized => true
  | .dos, .blocked => true
  | .dos, .detected => true
  | _, _ => false

/-! ### Stats singleton (`security-stats.ts`)

`updateSecurityStats` iterates over `Object.keys(req.body)` and assigns
`(stats as any)[key] = updates[key]` whenever `key in stats` and
`typeof updates[key] === "number"`.  Two JavaScript subtleties are part of
the model.  First, the guard tests the runtime type of the provided value,
not the declared type of the field, so a field of `stats` holds whatever
value was last assigned.  Second, the `in` operator traverses the prototype
chain: besides the object's own keys it accepts every property name of
`Object.prototype` (`toString`, `hasOwnProperty`, ...), and assigning such
a name creates a new own property shadowing the inherited one — except
`__proto__`, whose inherited setter ignores primitive values, making the
assignment a no-op.  The stats object is therefore modelled as its list of
own properties in insertion order. -/

/-- A JavaScript value as far as the stats object is concerned: a number
(the counters use integers only) or a string. -/
inductive JsVal
  | num (n : Int)
  | str (s : String)
deriving DecidableEq, Repr

/-- `typeof v === "number"`. -/
def JsVal.isNum : JsVal → Bool
  | .num _ => true
  | .str _ => false

/-- The own enumerable properties of the `stats` object, in insertion
order (the order `Object.keys` and JSON serialization use). -/
structure StatsObj where
  props : List (String × JsVal)
deriving DecidableEq, Repr

/-- `Object.prototype.hasOwnProperty`. -/
def StatsObj.hasOwn (s : StatsObj) (k : String) : Bool :=
  s.props.any (fun kv => kv.1 = k)

/-- Property lookup among the own properties. -/
def StatsObj.get (s : StatsObj) (k : String) : Option JsVal :=
  (s.props.find? (fun kv => kv.1 = k)).map (fun kv => kv.2)

/-- Overwrite an existing own property. -/
def StatsObj.setOwn (s : StatsObj) (k : String) (v : JsVal) : StatsObj :=
  { props := s.props.map (fun kv => if kv.1 = k then (k, v) else kv) }

/-- The property names of `Object.prototype` that are plain (writable) data
properties; a plain object inherits all of them. -/
def protoDataKeys : List String :=
  ["constructor", "hasOwnProperty", "isPrototypeOf", "propertyIsEnumerable",
   "toLocaleString", "toString", "valueOf",
   "__defineGetter__", "__defineSetter__", "__lookupGetter__",
   "__lookupSetter__"]

/-- The JavaScript `in` operator on the stats object: an own key, or any
property name inherited from `Object.prototype` (data properties and the
`__proto__` accessor). -/
def jsIn (s : StatsObj) (k : String) : Bool :=
  s.hasOwn k || protoDataKeys.contains k || k = "__proto__"

/-- The seed value of `stats` in `security-stats.ts`. -/
def initialStats : StatsObj :=
  { props :=
    [("totalScans", .num 1247), ("authorizedScans", .num 1156),
     ("unauthorizedScans", .num 91), ("dosAttacks", .num 23),
     ("activeThreats", .num 2), ("systemStatus", .str "operational")] }

/-- The JavaScript assignment `(stats as any)[key] = v`: overwrite an own
property in place; otherwise create a new own property at the end of the
insertion order — unless the key is `__proto__`, whose inherited setter
ignores a primitive right-hand side. -/
def assign (s : StatsObj) (k : String) (v : JsVal) : StatsObj :=
  if s.hasOwn k then s.setOwn k v
  else if k = "__proto__" then s
  else { props := s.props ++ [(k, v)] }

/-- One iteration of the `Object.keys(updates).forEach` loop of
`updateSecurityStats`: assign when `key in stats` and the provided value is
a number, otherwise do nothing. -/
def applyUpdate (s : StatsObj) (k : String) (v : JsVal) : StatsObj :=
  if jsIn s k && v.isNum then assign s k v else s

/-- `updateSecurityStats` of `security-stats.ts`: fold the loop body over the
provided key/value pairs (in the object's key iteration order). -/
def updateSecurityStats (s : StatsObj) (updates : List (String × JsVal)) :
    StatsObj :=
  updates.foldl (fun acc kv => applyUpdate acc kv.1 kv.2) s

/-! ### Health singleton (`security-stats.ts`) -/

/-- The `rfidReaders` gauge: online/total reader counts and a percentage. -/
structure ReaderGauge where
  online : Int
  total : Int
  percentage : ℚ
deriving DecidableEq, Repr

/-- A `{status, percentage}` gauge (`dosProtection`, `database`, `network`);
the status enums are modelled by their string values. -/
structure StatusGauge where
  status : String
  percentage : ℚ
deriving DecidableEq, Repr

/-- The `systemHealth` object of `security-stats.ts`. -/
structure SystemHealth where
  rfidReaders : ReaderGauge
  dosProtection : StatusGauge
  database : StatusGauge
  network : StatusGauge
deriving DecidableEq, Repr

/-- The seed value of `systemHealth` in `security-stats.ts`. -/
def initialSystemHealth : SystemHealth :=
  { rfidReaders := { online := 49, total := 50, percentage := 98 }
    dosProtection := { status := "active", percentage := 100 }
    database := { status := "operational", percentage := 95 }
    network := { status := "moderate", percentage := 75 } }

/-- The health part of the `setInterval` body in `security-stats.ts`:
each of the three drifting gauges is nudged by its drawn delta
(`(Math.random() - 0.5) * scale`, passed in here as `d1, d2, d3`) and
clamped by `Math.max(lo, Math.min(hi, _))`.  `dosProtection` is not touched. -/
def healthTick (h : SystemHealth) (d1 d2 d3 : ℚ) : SystemHealth :=
  { h with
    rfidReaders :=
      { h.rfidReaders with
        percentage := max 95 (min 100 (h.rfidReaders.percentage + d1)) }
    network :=
      { h.network with
        percentage := max 60 (min 95 (h.network.percentage + d2)) }
    database :=
      { h.database with
        percentage := max 90 (min 100 (h.database.percentage + d3)) } }

/-- `n` firings of the drift interval, with the drawn deltas given as a
list of triples. -/
def healthDriftN (h : SystemHealth) : List (ℚ × ℚ × ℚ) → SystemHealth
  | [] => h
  | d :: ds => healthDriftN (healthTick h d.1 d.2.1 d.2.2) ds

/-- Each drifting gauge's percentage lies in its documented clamp range. -/
def HealthInRange (h : SystemHealth) : Prop :=
  95 ≤ h.rfidReaders.percentage ∧ h.rfidReaders.percentage ≤ 100 ∧
  60 ≤ h.network.percentage ∧ h.network.percentage ≤ 95 ∧
  90 ≤ h.database.percentage ∧ h.database.percentage ≤ 100

/-! ### Object-identity model for the snapshot getters

`getSecurityStats` and `getSystemHealth` both return `{ ...state }`, a
shallow spread.  To reason about what a caller can reach through the
returned value we model JavaScript objects with explicit references: a heap
is a list of objects, a field holds a primitive or a reference, and the
spread allocates a fresh object carrying the same field values (so nested
references are shared). -/

/-- A field value of a JavaScript object: a primitive or a reference. -/
inductive JsField
  | num (q : ℚ)
  | str (s : String)
  | ref (r : Nat)
deriving DecidableEq, Repr

/-- A JavaScript object: its named fields in order. -/
structure Obj where
  fields : List (String × JsField)
deriving DecidableEq, Repr

/-- Read a field. -/
def Obj.get (o : Obj) (k : String) : Option JsField :=
  (o.fields.find? (fun kv => kv.1 = k)).map (fun kv => kv.2)

/-- Assign an existing field. -/
def Obj.set (o : Obj) (k : String) (v : JsField) : Obj :=
  { fields := o.fields.map (fun kv => if kv.1 = k then (k, v) else kv) }

/-- A heap of objects; a reference is an index. -/
structure Heap where
  objs : List Obj
deriving DecidableEq, Repr

/-- Dereference. -/
def Heap.read (h : Heap) (r : Nat) : Obj :=
  h.objs.getD r { fields := [] }

/-- Assign field `k` of the object behind `r`. -/
def Heap.write (h : Heap) (r : Nat) (k : String) (v : JsField) : Heap :=
  { objs := h.objs.set r ((h.read r).set k v) }

/-- Allocate a fresh object, returning its reference. -/
def Heap.alloc (h : Heap) (o : Obj) : Nat × Heap :=
  (h.objs.length, { objs := h.objs ++ [o] })

/-- `{ ...o }`: allocate a fresh object with the same field values; a field
holding a reference still holds the same reference afterwards. -/
def spreadCopy (h : Heap) (r : Nat) : Nat × Heap :=
  h.alloc (h.read r)

/-- Reference of the `stats` singleton in the process heap. -/
def statsRef : Nat := 0

/-- Reference of the `systemHealth` singleton in the process heap. -/
def healthRef : Nat := 5

/-- The process heap at module load: the `stats` object (all primitive
fields), the four gauge objects, and the `systemHealth` object whose fields
are references to the gauges. -/
def initialHeap : Heap :=
  { objs :=
    [ { fields := [("totalScans", .num 1247), ("authorizedScans", .num 1156),
        ("unauthorizedScans", .num 91), ("dosAttacks", .num 23),
        ("activeThreats", .num 2), ("systemStatus", .str "operational")] }
    , { fields := [("online", .num 49), ("total", .num 50), ("percentage", .num 98)] }
    , { fields := [("status", .str "active"), ("percentage", .num 100)] }
    , { fields := [("status", .str "operational"), ("percentage", .num 95)] }
    , { fields := [("status", .str "moderate"), ("percentage", .num 75)] }
    , { fields := [("rfidReaders", .ref 1), ("dosProtection", .ref 2),
        ("database", .ref 3), ("network", .ref 4)] } ] }

/-- `getSecurityStats`: `res.json({ ...stats })`. -/
def getSecurityStatsH (h : Heap) : Nat × Heap :=
  spreadCopy h statsRef

/-- `getSystemHealth`: `res.json({ ...systemHealth })`. -/
def getSystemHealthH (h : Heap) : Nat × Heap :=
  spreadCopy h healthRef

/-! ### Concrete fixtures used in witnesses and counterexamples -/

/-- A fixed assignment of random draws: an authorized rfid event. -/
def defaultRand : MockRand :=
  { pickDos := false
    outcomeFlag := true
    sevFlag := false
    idStr := "seed-id"
    now := "T0"
    locFloor := 1
    locRoom := 100
    cardStr := "AAAAAA"
    ip1 := 10, ip2 := 20, ip3 := 30, ip4 := 40 }

/-- A concrete 20-event seed batch. -/
def seedStore : List SecurityEvent :=
  (List.replicate 20 defaultRand).map generateMockEvent

/-- A submission pairing the rfid kind with the dos-only outcome `blocked`;
the route's validation only checks that `type` and `status` are present. -/
def badSubmit : PartialEvent :=
  { type := some .rfid, status := some .blocked }

/-- The store after submitting `badSubmit` on the seeded store. -/
def badStore : List SecurityEvent :=
  (addSecurityEvent "g1" "T1" badSubmit seedStore).2

/-- A submission that supplies its own `id` field. -/
def dupSubmit : PartialEvent :=
  { id := some "dup-id", type := some .rfid, status := some .authorized }

/-- The store after submitting `dupSubmit` once on the seeded store. -/
def dupStore1 : List SecurityEvent :=
  (addSecurityEvent "g1" "T1" dupSubmit seedStore).2

/-- The store after submitting `dupSubmit` a second time. -/
def dupStore2 : List SecurityEvent :=
  (addSecurityEvent "g2" "T2" dupSubmit dupStore1).2

/-- The health snapshot handed to a caller at process start. -/
def healthSnap : Nat × Heap :=
  getSystemHealthH initialHeap

/-- The gauge reference a caller obtains by reading the `rfidReaders` field
of the returned health snapshot. -/
def snapGaugeRef : Nat :=
  match (healthSnap.2.read healthSnap.1).get "rfidReaders" with
  | some (.ref r) => r
  | _ => 0

/-- The heap after the caller assigns `percentage = 0` on the nested gauge
record of the value `getSystemHealth` returned to it. -/
def heapAfterCallerMutation : Heap :=
  healthSnap.2.write snapGaugeRef "percentage" (.num 0)

/-! ### Helper lemmas -/

/-- A producer tick always leaves the 100-newest prefix of the unshifted
store, whether or not the cap was exceeded. -/
lemma producerTick_eq_take (r : MockRand) (store : List SecurityEvent) :
    producerTick r store = (generateMockEvent r :: store).take 100 := by
  unfold producerTick
  by_cases h : (generateMockEvent r :: store).length > 100
  · simp [h]
  · simp only [h, if_false]
    exact (List.take_of_length_le (by omega)).symm

/-! ### Claims -/

/-- C1: for every store state and all `page ≥ 1`, `limit ≥ 1`,
`listEvents(page, limit)` returns exactly the slice
`events[(page-1)*limit : (page-1)*limit + limit]` of the newest-first list,
hence at most `limit` events, an empty slice (not an error) when the start
index is past the end, and `total` equal to the full current count. -/
theorem getSecurityEvents_paginates (store : List SecurityEvent)
    (page limit : Nat) (hp : 1 ≤ page) (hl : 1 ≤ limit) :
    (getSecurityEvents store page limit).events
        = (store.drop ((page - 1) * limit)).take limit
    ∧ (getSecurityEvents store page limit).events.length ≤ limit
    ∧ (getSecurityEvents store page limit).total = store.length
    ∧ (store.length ≤ (page - 1) * limit →
        (getSecurityEvents store page limit).events = []) := by
  refine ⟨rfl, List.length_take_le limit _, rfl, fun h => ?_⟩
  simp [getSecurityEvents, List.drop_eq_nil_iff.mpr h]

theorem getSecurityEvents_paginates_witness :
    (getSecurityEvents seedStore 3 4).events.length ≤ 4
    ∧ (getSecurityEvents seedStore 3 4).total = seedStore.length
    ∧ (getSecurityEvents seedStore 6 4).events = [] :=
  ⟨(getSecurityEvents_paginates seedStore 3 4 (by decide) (by decide)).2.1,
   (getSecurityEvents_paginates seedStore 3 4 (by decide) (by decide)).2.2.1,
   (getSecurityEvents_paginates seedStore 6 4 (by decide) (by decide)).2.2.2
     (by decide)⟩

/-- C2: each firing of the periodic producer inserts exactly one new event
at the front and then keeps only the 100 most recent events, dropping from
the tail; so immediately after any tick the store holds at most 100 events,
with the oldest entries the ones evicted, for any prior store (also one
inflated by a burst of explicit submissions). -/
theorem producerTick_capped (r : MockRand) (store : List SecurityEvent) :
    producerTick r store = (generateMockEvent r :: store).take 100
    ∧ (producerTick r store).length = min (store.length + 1) 100
    ∧ (producerTick r store).length ≤ 100
    ∧ (producerTick r store).head? = some (generateMockEvent r) := by
  refine ⟨producerTick_eq_take r store, ?_, ?_, ?_⟩
  · rw [producerTick_eq_take, List.length_take]
    simp [Nat.min_comm]
  · rw [producerTick_eq_take, List.length_take]
    omega
  · rw [producerTick_eq_take]
    rfl

/-- C3: submitting an event whose only provided fields are
`type = "rfid"` (the spec's badge-access kind) and `status = "authorized"`
succeeds: the result carries the freshly generated id and timestamp,
severity defaulted to medium, the given type and status, and is unshifted
onto the store with no trim, so the store grows by exactly one even when it
already holds 100 or more events. -/
theorem addSecurityEvent_minimal_submit (newId now : String)
    (store : List SecurityEvent) :
    ∃ ev : SecurityEvent,
      (addSecurityEvent newId now
          { type := some .rfid, status := some .authorized } store).1 = .ok ev
      ∧ ev.id = newId ∧ ev.timestamp = now ∧ ev.severity = .medium
      ∧ ev.type = .rfid ∧ ev.status = .authorized
      ∧ (addSecurityEvent newId now
          { type := some .rfid, status := some .authorized } store).2 = ev :: store
      ∧ (addSecurityEvent newId now
          { type := some .rfid, status := some .authorized } store).2.length
          = store.length + 1 :=
  ⟨mergeEvent newId now { type := some .rfid, status := some .authorized }
      .rfid .authorized,
   rfl, rfl, rfl, rfl, rfl, rfl, rfl, rfl⟩

/-- C5: submission fails with the 400 validation error whenever `type`
(kind) or `status` (outcome) is absent, and in exactly that case the store
is unchanged; when both are present the submission succeeds and unshifts
the merged event. -/
theorem addSecurityEvent_validation (newId now : String) (e : PartialEvent)
    (store : List SecurityEvent) :
    (e.type = none ∨ e.status = none →
      (addSecurityEvent newId now e store).1
          = .error "Missing required fields: type, status"
      ∧ (addSecurityEvent newId now e store).2 = store)
    ∧ (∀ t st, e.type = some t → e.status = some st →
        (addSecurityEvent newId now e store).1 = .ok (mergeEvent newId now e t st)
        ∧ (addSecurityEvent newId now e store).2
            = mergeEvent newId now e t st :: store) := by
  constructor
  · intro h
    rcases ht : e.type with _ | t <;> rcases hst : e.status with _ | st <;>
      simp [addSecurityEvent, ht, hst] at h ⊢
  · intro t st ht hst
    simp [addSecurityEvent, ht, hst]

theorem addSecurityEvent_validation_witness :
    (addSecurityEvent "g0" "T0" {} []).1
        = .error "Missing required fields: type, status"
    ∧ (addSecurityEvent "g0" "T0" {} []).2 = [] :=
  (addSecurityEvent_validation "g0" "T0" {} []).1 (Or.inl rfl)

/-- C4 counterexample: a store state reachable from the seed batch by one
explicit submission holds an event pairing the rfid kind with the dos-only
outcome `blocked` — the submit route never checks that the provided status
belongs to the provided type's valid set. -/
theorem kindOutcome_invariant_fails :
    ∃ s, Reachable s ∧ ∃ ev ∈ s, validOutcome ev.type ev.status = false := by
  refine ⟨badStore, ?_, mergeEvent "g1" "T1" badSubmit .rfid .blocked, ?_, rfl⟩
  · exact Reachable.submit "g1" "T1" badSubmit
      (Reachable.seed (List.replicate 20 defaultRand) (by simp))
  · exact List.mem_cons_self _ _

/-- C4 amended: every event created by `generateMockEvent` (the seed batch
and every producer tick) pairs its kind with an outcome from that kind's
valid set, and both the producer tick and a submission whose own
type/status pair is valid preserve the all-valid invariant; an explicit
submission, however, may pair any kind with any outcome. -/
theorem kindOutcome_invariant_amended :
    (∀ r, validOutcome (generateMockEvent r).type (generateMockEvent r).status
        = true)
    ∧ (∀ (r : MockRand) (s : List SecurityEvent),
        (∀ ev ∈ s, validOutcome ev.type ev.status = true) →
        ∀ ev ∈ producerTick r s, validOutcome ev.type ev.status = true)
    ∧ (∀ (newId now : String) (e : PartialEvent) (s : List SecurityEvent)
        (t : EventType) (st : EventStatus),
        e.type = some t → e.status = some st → validOutcome t st = true →
        (∀ ev ∈ s, validOutcome ev.type ev.status = true) →
        ∀ ev ∈ (addSecurityEvent newId now e s).2,
          validOutcome ev.type ev.status = true) := by
  have hgen : ∀ r, validOutcome (generateMockEvent r).type
      (generateMockEvent r).status = true := by
    intro r
    cases hd : r.pickDos <;> cases ho : r.outcomeFlag <;>
      simp [generateMockEvent, validOutcome, hd, ho]
  refine ⟨hgen, ?_, ?_⟩
  · intro r s hs ev hev
    rw [producerTick_eq_take] at hev
    rcases List.mem_cons.mp (List.mem_of_mem_take hev) with h | h
    · rw [h]; exact hgen r
    · exact hs ev h
  · intro newId now e s t st ht hst hv hs ev hev
    unfold addSecurityEvent at hev
    rw [ht, hst] at hev
    rcases List.mem_cons.mp hev with h | h
    · rw [h]; exact hv
    · exact hs ev h

theorem kindOutcome_invariant_amended_witness :
    validOutcome (generateMockEvent defaultRand).type
        (generateMockEvent defaultRand).status = true
    ∧ ((addSecurityEvent "g0" "T0"
        { type := some .rfid, status := some .authorized } []).2.all
        (fun ev => validOutcome ev.type ev.status)) = true := by
  refine ⟨kindOutcome_invariant_amended.1 defaultRand, ?_⟩
  rw [List.all_eq_true]
  intro ev hev
  exact kindOutcome_invariant_amended.2.2 "g0" "T0"
    { type := some .rfid, status := some .authorized } [] .rfid .authorized
    rfl rfl rfl (by simp) ev hev

/-- C9 counterexample: submitting twice with the same caller-supplied
`id = "dup-id"` (on a reachable, seeded store) stores two distinct events
— their timestamps differ — that share one id: the route's spread lets the
body's `id` override the freshly generated one, with no uniqueness check. -/
theorem event_ids_not_unique :
    Reachable dupStore2
    ∧ dupStore2[0]? ≠ dupStore2[1]?
    ∧ (dupStore2.map SecurityEvent.id)[0]? = some "dup-id"
    ∧ (dupStore2.map SecurityEvent.id)[1]? = some "dup-id" := by
  refine ⟨?_, by decide, rfl, rfl⟩
  exact Reachable.submit "g2" "T2" dupSubmit
    (Reachable.submit "g1" "T1" dupSubmit
      (Reachable.seed (List.replicate 20 defaultRand) (by simp)))

/-- C9 amended: ids are assigned at creation, but a submission that
supplies its own `id` keeps it unchanged — the generated id is used only
when the body omits the field — and no uniqueness check is performed, so
distinct stored events may share an id. -/
theorem submitted_id_kept (newId now : String) (idOpt : Option String)
    (t : EventType) (st : EventStatus) (store : List SecurityEvent) :
    (addSecurityEvent newId now
        { id := idOpt, type := some t, status := some st } store).2.length
        = store.length + 1
    ∧ (addSecurityEvent newId now
        { id := idOpt, type := some t, status := some st } store).2.head?
        = some (mergeEvent newId now
            { id := idOpt, type := some t, status := some st } t st)
    ∧ (mergeEvent newId now
        { id := idOpt, type := some t, status := some st } t st).id
        = idOpt.getD newId :=
  ⟨rfl, rfl, rfl⟩

/-- C6 counterexample: `updateStats({systemStatus: 5})` does change the
stored status classification — the guard tests `key in stats` and that the
provided value is a number, not that the field is a numeric counter, and
`systemStatus` is a key of the stats object. -/
theorem updateStats_systemStatus_overwritten :
    (updateSecurityStats initialStats
        [("systemStatus", JsVal.num 5)]).get "systemStatus"
        = some (JsVal.num 5)
    ∧ initialStats.get "systemStatus" = some (JsVal.str "operational") := by
  exact ⟨by decide, by decide⟩

/-- C6 amended: `updateStats` overwrites each provided field whose name is
an own key of the stats object and whose provided value is a number —
which includes `systemStatus` when it is given a numeric value — with
last-write-wins and no addition; a provided field whose value is not a
number, or whose name is not `in` the object at all, is silently ignored;
but a provided name inherited from `Object.prototype` (such as `toString`)
with a numeric value passes the `in` guard and is assigned as a new own
property on the stored singleton (`__proto__` alone stays a no-op, its
inherited setter ignoring primitive values).  In particular
`updateStats({dosAttacks: 5})` sets `dosAttacks` to exactly 5 and leaves
every other stored field unchanged. -/
theorem updateStats_numeric_overwrite :
    updateSecurityStats initialStats [("dosAttacks", JsVal.num 5)]
        = { props :=
            [("totalScans", .num 1247), ("authorizedScans", .num 1156),
             ("unauthorizedScans", .num 91), ("dosAttacks", .num 5),
             ("activeThreats", .num 2), ("systemStatus", .str "operational")] }
    ∧ (∀ (s : StatsObj) (k : String) (v : JsVal),
        jsIn s k = false → applyUpdate s k v = s)
    ∧ (∀ (s : StatsObj) (k sv : String), applyUpdate s k (JsVal.str sv) = s)
    ∧ updateSecurityStats initialStats [("systemStatus", JsVal.num 5)]
        = { props :=
            [("totalScans", .num 1247), ("authorizedScans", .num 1156),
             ("unauthorizedScans", .num 91), ("dosAttacks", .num 23),
             ("activeThreats", .num 2), ("systemStatus", .num 5)] }
    ∧ updateSecurityStats initialStats [("toString", JsVal.num 5)]
        = { props :=
            [("totalScans", .num 1247), ("authorizedScans", .num 1156),
             ("unauthorizedScans", .num 91), ("dosAttacks", .num 23),
             ("activeThreats", .num 2), ("systemStatus", .str "operational"),
             ("toString", .num 5)] }
    ∧ initialStats.hasOwn "toString" = false
    ∧ applyUpdate initialStats "__proto__" (JsVal.num 5) = initialStats := by
  refine ⟨by decide, ?_, ?_, by decide, by decide, by decide, by decide⟩
  · intro s k v h
    simp [applyUpdate, h]
  · intro s k sv
    simp [applyUpdate, JsVal.isNum]

theorem updateStats_numeric_overwrite_witness :
    applyUpdate initialStats "bogus" (JsVal.num 1) = initialStats :=
  updateStats_numeric_overwrite.2.1 initialStats "bogus" (JsVal.num 1)
    (by decide)

/-- C7: from the seed values, after any number of drift ticks and whatever
the drawn deltas, the reader-fleet percentage stays in [95, 100], the
network percentage stays in [60, 95], and the storage (database)
percentage stays in [90, 100]: each tick clamps its result into the range
by `max lo (min hi _)`. -/
theorem healthDrift_clamped (ds : List (ℚ × ℚ × ℚ)) :
    HealthInRange (healthDriftN initialSystemHealth ds) := by
  have tick : ∀ (h : SystemHealth) (d1 d2 d3 : ℚ),
      HealthInRange (healthTick h d1 d2 d3) := by
    intro h d1 d2 d3
    refine ⟨le_max_left _ _, max_le (by norm_num) (min_le_left _ _),
      le_max_left _ _, max_le (by norm_num) (min_le_left _ _),
      le_max_left _ _, max_le (by norm_num) (min_le_left _ _)⟩
  have step : ∀ (ds : List (ℚ × ℚ × ℚ)) (h : SystemHealth),
      HealthInRange h → HealthInRange (healthDriftN h ds) := by
    intro ds
    induction ds with
    | nil => intro h hh; exact hh
    | cons d ds ih => intro h _; exact ih _ (tick h d.1 d.2.1 d.2.2)
  refine step ds initialSystemHealth ?_
  refine ⟨?_, ?_, ?_, ?_, ?_, ?_⟩ <;> norm_num [initialSystemHealth]

/-- C10: a drift tick assigns only the three drifting gauges' percentages —
the `dosProtection` gauge, the online/total reader counts and every status
field are untouched — so after any number of ticks from the seed the
protection gauge still reads `{status: "active", percentage: 100}` and all
statuses and reader counts keep their seed values. -/
theorem healthDrift_frame :
    (∀ (h : SystemHealth) (d1 d2 d3 : ℚ),
      (healthTick h d1 d2 d3).dosProtection = h.dosProtection
      ∧ (healthTick h d1 d2 d3).rfidReaders.online = h.rfidReaders.online
      ∧ (healthTick h d1 d2 d3).rfidReaders.total = h.rfidReaders.total
      ∧ (healthTick h d1 d2 d3).database.status = h.database.status
      ∧ (healthTick h d1 d2 d3).network.status = h.network.status)
    ∧ (∀ ds : List (ℚ × ℚ × ℚ),
      (healthDriftN initialSystemHealth ds).dosProtection
          = { status := "active", percentage := 100 }
      ∧ (healthDriftN initialSystemHealth ds).rfidReaders.online = 49
      ∧ (healthDriftN initialSystemHealth ds).rfidReaders.total = 50
      ∧ (healthDriftN initialSystemHealth ds).database.status = "operational"
      ∧ (healthDriftN initialSystemHealth ds).network.status = "moderate") := by
  have frame : ∀ (ds : List (ℚ × ℚ × ℚ)) (h : SystemHealth),
      (healthDriftN h ds).dosProtection = h.dosProtection
      ∧ (healthDriftN h ds).rfidReaders.online = h.rfidReaders.online
      ∧ (healthDriftN h ds).rfidReaders.total = h.rfidReaders.total
      ∧ (healthDriftN h ds).database.status = h.database.status
      ∧ (healthDriftN h ds).network.status = h.network.status := by
    intro ds
    induction ds with
    | nil => intro h; exact ⟨rfl, rfl, rfl, rfl, rfl⟩
    | cons d ds ih =>
        intro h
        obtain ⟨a, b, c, d', e⟩ := ih (healthTick h d.1 d.2.1 d.2.2)
        exact ⟨a, b, c, d', e⟩
  exact ⟨fun h d1 d2 d3 => ⟨rfl, rfl, rfl, rfl, rfl⟩, fun ds => frame ds _⟩

/-- C8 counterexample: `getHealth` returns `{...systemHealth}`, a shallow
copy: the snapshot's `rfidReaders` field holds the same reference as the
internal singleton's, so when the caller assigns `percentage = 0` on the
nested gauge record of the returned value, the internal health state reads
0 afterwards instead of its prior 98. -/
theorem getSystemHealth_shallow_copy_leaks :
    ((initialHeap.read healthRef).get "rfidReaders" = some (JsField.ref 1)
      ∧ (initialHeap.read 1).get "percentage" = some (JsField.num 98))
    ∧ (healthSnap.2.read healthSnap.1).get "rfidReaders"
        = some (JsField.ref 1)
    ∧ (heapAfterCallerMutation.read healthRef).get "rfidReaders"
        = some (JsField.ref 1)
    ∧ (heapAfterCallerMutation.read 1).get "percentage"
        = some (JsField.num 0) := by
  exact ⟨⟨rfl, rfl⟩, rfl, rfl, rfl⟩

/-- C8 amended: `getStats` is a true snapshot — the stats object has only
primitive fields, and any assignment through the returned reference leaves
the internal stats object untouched; `getHealth` copies only the top-level
object — assignments on the returned object itself do not reach the
internal one — but its nested gauge records are shared by reference, so
mutating them does change stored health state. -/
theorem snapshot_copy_depth (k : String) (v : JsField) :
    ((getSecurityStatsH initialHeap).2.write
        (getSecurityStatsH initialHeap).1 k v).read statsRef
        = initialHeap.read statsRef
    ∧ ((getSystemHealthH initialHeap).2.write
        (getSystemHealthH initialHeap).1 k v).read healthRef
        = initialHeap.read healthRef
    ∧ ((initialHeap.read statsRef).fields.all (fun kv =>
        match kv.2 with | .ref _ => false | _ => true)) = true
    ∧ (healthSnap.2.read healthSnap.1).get "rfidReaders"
        = (healthSnap.2.read healthRef).get "rfidReaders" := by
  exact ⟨rfl, rfl, rfl, rfl⟩

end SecureGuard
